import Mathlib

/-
Verification of the RM690B0 AMOLED panel driver (esp_lcd_panel_rm690b0.cpp).

The driver is embedded shallowly:
 * `Panel` mirrors the mutable fields of `RM690B0Panel` that the verified
   operations read or write (brightness, gaps, pixel depth, orientation
   flags, element order, grayscale).  GPIO pin numbers and the io handle
   are not part of the model: pins never produce transport transactions
   and the io handle is replaced by an explicit transport tape.
 * The transport (`esp_lcd_panel_io`) is a result tape `tx : Nat → Int`
   giving the `esp_err_t` result of the i-th transaction issued (both
   `tx_param` and `tx_color` consume one tape position), and a `TxState`
   records how many transactions were issued together with the trace of
   issued transactions (`Txn.cmd` for tx_param, `Txn.pixels` for tx_color).
 * C machine integers become `Nat`/`Int` with explicit `% 256` (uint8_t),
   `Int.emod (2 ^ 64)` (size_t) and `Int.ediv`/`Int.emod` for the
   arithmetic shift/mask byte extraction performed on `int` values.
-/

set_option autoImplicit false

namespace RM690B0

/-- esp_err_t success value ESP_OK. -/
def ESP_OK : Int := 0

/-- esp_err_t generic failure value ESP_FAIL. -/
def ESP_FAIL : Int := -1

/-- esp_err_t value ESP_ERR_INVALID_ARG (0x102). -/
def ESP_ERR_INVALID_ARG : Int := 0x102

/-- Source constant command_prefix = 0x02000000UL (renamed here). -/
def command_base : Int := 0x02000000

/-- Source constant pixel_prefix = 0x32000000UL (renamed here). -/
def pixel_base : Int := 0x32000000

/-- LCD_CMD_SLPIN from esp_lcd_panel_commands.h. -/
def LCD_CMD_SLPIN : Nat := 0x10

/-- LCD_CMD_SLPOUT from esp_lcd_panel_commands.h. -/
def LCD_CMD_SLPOUT : Nat := 0x11

/-- LCD_CMD_DISPON from esp_lcd_panel_commands.h. -/
def LCD_CMD_DISPON : Nat := 0x29

/-- LCD_CMD_CASET from esp_lcd_panel_commands.h. -/
def LCD_CMD_CASET : Nat := 0x2A

/-- LCD_CMD_RASET from esp_lcd_panel_commands.h. -/
def LCD_CMD_RASET : Nat := 0x2B

/-- LCD_CMD_RAMWR from esp_lcd_panel_commands.h. -/
def LCD_CMD_RAMWR : Nat := 0x2C

/-- LCD_CMD_TEON from esp_lcd_panel_commands.h. -/
def LCD_CMD_TEON : Nat := 0x35

/-- LCD_CMD_MADCTL from esp_lcd_panel_commands.h. -/
def LCD_CMD_MADCTL : Nat := 0x36

/-- LCD_CMD_COLMOD from esp_lcd_panel_commands.h. -/
def LCD_CMD_COLMOD : Nat := 0x3A

/-- Source constant lcd_cmd_unknown_0x2400. -/
def lcd_cmd_unknown_0x2400 : Nat := 0x24

/-- Source constant lcd_cmd_unknown_0x5B00. -/
def lcd_cmd_unknown_0x5B00 : Nat := 0x5B

/-- Source constant lcd_cmd_write_display_brightness. -/
def lcd_cmd_write_display_brightness : Nat := 0x51

/-- Source constant lcd_cmd_set_disp_mode. -/
def lcd_cmd_set_disp_mode : Nat := 0xC2

/-- Source constant lcd_cmd_cmd_mode_switch. -/
def lcd_cmd_cmd_mode_switch : Nat := 0xFE

/-- Source constant lcd_cmd_interface_pixel_format_option. -/
def lcd_cmd_interface_pixel_format_option : Nat := 0x80

/-- Source constant color_3_bits_per_pixel = 0b00110011. -/
def color_3_bits_per_pixel : Nat := 0b00110011

/-- Source constant grayscale_8_bits_per_pixel = 0b00010001. -/
def grayscale_8_bits_per_pixel : Nat := 0b00010001

/-- Source constant color_8_bits_per_pixel = 0b00100010. -/
def color_8_bits_per_pixel : Nat := 0b00100010

/-- Source constant color_16_bits_per_pixel = 0b01010101. -/
def color_16_bits_per_pixel : Nat := 0b01010101

/-- Source constant color_18_bits_per_pixel = 0b01100110. -/
def color_18_bits_per_pixel : Nat := 0b01100110

/-- Source constant color_24_bits_per_pixel = 0b01110111. -/
def color_24_bits_per_pixel : Nat := 0b01110111

/-- Source constant rotation_normal. -/
def rotation_normal : Nat := 0

/-- Source constant rotation_mirror_y. -/
def rotation_mirror_y : Nat := 0x10

/-- Source constant rotation_swap_xy. -/
def rotation_swap_xy : Nat := 0x20

/-- Source constant rotation_minus90. -/
def rotation_minus90 : Nat := 0x30

/-- Source constant rotation_plus90. -/
def rotation_plus90 : Nat := 0x60

/-- Source constant rbg_element_order_rgb. -/
def rbg_element_order_rgb : Nat := 0

/-- Source constant rbg_element_order_bgr = 0b00001000. -/
def rbg_element_order_bgr : Nat := 0b00001000

/-- lcd_rgb_element_order_t. -/
inductive RGBOrder where
  | rgb
  | bgr
deriving DecidableEq, Repr

/-- The mutable fields of `RM690B0Panel` used by the verified operations,
with the member-initializer defaults of the C++ struct.  uint8_t fields
are `Nat` values kept below 256 by the operations that write them. -/
structure Panel where
  brightness : Nat := 0
  x_gap : Nat := 0
  y_gap : Nat := 0
  bits_per_pixel : Nat := 0
  swap_xy : Bool := false
  mirror_x : Bool := false
  mirror_y : Bool := false
  rgb_ele_order : RGBOrder := RGBOrder.rgb
  grayscale : Bool := false
deriving DecidableEq, Repr

/-- A `Panel` with all fields at their C++ member-initializer defaults. -/
def basePanel : Panel := {}

/-- `LCDCmd`: wire identifier, parameter bytes, settle delay (ms). -/
structure LCDCmd where
  lcd_cmd : Int
  param : List Nat
  delay : Nat
deriving DecidableEq, Repr

/-- The `LCDCmd` constructor: builds the 32-bit wire word
`command_prefix + (command_addr << 8)` and the per-address settle delay.
`command_addr` is a uint8_t, embedded as `% 256`. -/
def LCDCmd.of (command_addr : Nat) (param : List Nat) : LCDCmd :=
  { lcd_cmd := command_base + ((command_addr % 256 : Nat) : Int) * 256
    param := param
    delay :=
      if command_addr % 256 = LCD_CMD_SLPIN then 5
      else if command_addr % 256 = LCD_CMD_SLPOUT then 120
      else if command_addr % 256 = LCD_CMD_DISPON ∨ command_addr % 256 = lcd_cmd_set_disp_mode then 10
      else 0 }

/-- One transaction as seen by the transport: a parameterized command
(`tx_param`) or a bulk pixel transfer (`tx_color`) with its byte count. -/
inductive Txn where
  | cmd : Int → List Nat → Txn
  | pixels : Int → Nat → Txn
deriving DecidableEq, Repr

/-- Transport-side state: how many transactions were issued so far (the
position on the result tape) and the trace of issued transactions. -/
structure TxState where
  idx : Nat
  trace : List Txn
deriving DecidableEq, Repr

/-- `send_command`: issues one tx_param transaction and returns the
transport's result for it (the settle delay has no observable effect in
the model). -/
def send_command (tx : Nat → Int) (s : TxState) (c : LCDCmd) : Int × TxState :=
  (tx s.idx, ⟨s.idx + 1, s.trace ++ [Txn.cmd c.lcd_cmd c.param]⟩)

/-- `send_commands`: sends the list in order, stopping at the first
command whose transport result is not ESP_OK (ESP_RETURN_ON_ERROR). -/
def send_commands (tx : Nat → Int) : TxState → List LCDCmd → Int × TxState
  | s, [] => (ESP_OK, s)
  | s, c :: rest =>
    let r := send_command tx s c
    if r.1 = ESP_OK then send_commands tx r.2 rest else r

/-- `get_pixel_format`: the COLMOD format byte, 0 as "unsupported". -/
def get_pixel_format (p : Panel) : Nat :=
  if p.grayscale ∧ p.bits_per_pixel ≠ 8 then 0
  else if p.bits_per_pixel = 3 then color_3_bits_per_pixel
  else if p.bits_per_pixel = 8 then
    (if p.grayscale then grayscale_8_bits_per_pixel else color_8_bits_per_pixel)
  else if p.bits_per_pixel = 16 then color_16_bits_per_pixel
  else if p.bits_per_pixel = 18 then color_18_bits_per_pixel
  else if p.bits_per_pixel = 24 then color_24_bits_per_pixel
  else 0

/-- `get_scan_direction`: the rotation code for the orientation flags. -/
def get_scan_direction (p : Panel) : Nat :=
  if p.swap_xy then
    if p.mirror_x then rotation_minus90
    else if p.mirror_y then rotation_plus90
    else rotation_swap_xy
  else if p.mirror_y then rotation_mirror_y
  else rotation_normal

/-- The MADCTL parameter byte: scan direction ORed with element order. -/
def madctl_param (p : Panel) : Nat :=
  get_scan_direction p |||
    (if p.rgb_ele_order = RGBOrder.rgb then rbg_element_order_rgb else rbg_element_order_bgr)

/-- `update_screen_orientation`: sends MADCTL with the parameter byte. -/
def update_screen_orientation (tx : Nat → Int) (p : Panel) (s : TxState) : Int × TxState :=
  send_command tx s (LCDCmd.of LCD_CMD_MADCTL [madctl_param p])

/-- `default_init_cmds`: the fixed init command list. -/
def default_init_cmds : List LCDCmd :=
  [ LCDCmd.of lcd_cmd_cmd_mode_switch [0x20]
  , LCDCmd.of lcd_cmd_unknown_0x2400 [0x80]
  , LCDCmd.of lcd_cmd_unknown_0x5B00 [0x2E]
  , LCDCmd.of lcd_cmd_cmd_mode_switch [0x00]
  , LCDCmd.of lcd_cmd_set_disp_mode [0x00]
  , LCDCmd.of LCD_CMD_TEON [0x00]
  , LCDCmd.of LCD_CMD_SLPOUT []
  , LCDCmd.of LCD_CMD_DISPON []
  ]

/-- `esp_lcd_panel_rm690b0_get_brightness`. -/
def get_brightness (p : Panel) : Nat := p.brightness

/-- `esp_lcd_panel_rm690b0_set_brightness`: stores the (uint8_t) value in
the cache, then sends the brightness command and returns its result. -/
def set_brightness (tx : Nat → Int) (p : Panel) (s : TxState) (b : Nat) :
    Int × Panel × TxState :=
  let p2 := { p with brightness := b % 256 }
  let r := send_command tx s (LCDCmd.of lcd_cmd_write_display_brightness [b % 256])
  (r.1, p2, r.2)

/-- `init`: EN-pin power-up (no transaction), init command list with
abort-on-first-failure, orientation (result ignored), pixel-format check,
COLMOD, the 16bpp byte-swap option (result ignored), brightness 0xFF. -/
def init (tx : Nat → Int) (p : Panel) (s : TxState) : Int × Panel × TxState :=
  let r1 := send_commands tx s default_init_cmds
  if r1.1 ≠ ESP_OK then (r1.1, p, r1.2)
  else
    let s1 := (update_screen_orientation tx p r1.2).2
    let pf := get_pixel_format p
    if pf = 0 then (ESP_ERR_INVALID_ARG, p, s1)
    else
      let r2 := send_command tx s1 (LCDCmd.of LCD_CMD_COLMOD [pf])
      if r2.1 ≠ ESP_OK then (r2.1, p, r2.2)
      else
        let s2 :=
          if p.bits_per_pixel = 16 then
            (send_command tx r2.2 (LCDCmd.of lcd_cmd_interface_pixel_format_option [0b00010000])).2
          else r2.2
        set_brightness tx p s2 0xFF

/-- C `(v >> 8) & 0xFF` on an int: arithmetic shift (floor division,
`Int.ediv` for the positive divisor 256) then mask (`Int.emod`). -/
def be_hi (v : Int) : Nat := ((v / 256) % 256).toNat

/-- C `v & 0xFF` on an int. -/
def be_lo (v : Int) : Nat := (v % 256).toNat

/-- `draw_bitmap`: gap-shifted inclusive window, CASET/RASET/RAMWR via
`send_commands` (abort on first failure), then the tx_color bulk transfer
whose byte count is computed in size_t arithmetic (`% 2 ^ 64`). -/
def draw_bitmap (tx : Nat → Int) (p : Panel) (s : TxState)
    (x_start y_start x_end y_end : Int) : Int × TxState :=
  let xs := x_start + (p.x_gap : Int)
  let xe := x_end + (p.x_gap : Int) - 1
  let ys := y_start + (p.y_gap : Int)
  let ye := y_end + (p.y_gap : Int) - 1
  let cmds : List LCDCmd :=
    [ LCDCmd.of LCD_CMD_CASET [be_hi xs, be_lo xs, be_hi xe, be_lo xe]
    , LCDCmd.of LCD_CMD_RASET [be_hi ys, be_lo ys, be_hi ye, be_lo ye]
    , LCDCmd.of LCD_CMD_RAMWR []
    ]
  let r := send_commands tx s cmds
  if r.1 ≠ ESP_OK then r
  else
    let area_size : Nat := (((xe - xs + 1) * (ye - ys + 1)) % (2 ^ 64 : Int)).toNat
    let byteCount : Nat := area_size * p.bits_per_pixel % 2 ^ 64 / 8
    (tx r.2.idx,
      ⟨r.2.idx + 1, r.2.trace ++ [Txn.pixels (pixel_base + ((LCD_CMD_RAMWR : Nat) : Int) * 256) byteCount]⟩)

/-- `set_gap`: stores the int arguments into the uint8_t gap fields
(modular conversion) and returns ESP_OK without touching the transport. -/
def set_gap (p : Panel) (s : TxState) (x_gap y_gap : Int) : Int × Panel × TxState :=
  (ESP_OK, { p with x_gap := (x_gap % 256).toNat, y_gap := (y_gap % 256).toNat }, s)

/-- The rotation-code tie-break table as the spec states it (used to
compare the source's `get_scan_direction` against the spec wording). -/
def specRotCode (sw mx my : Bool) : Nat :=
  match sw, mx, my with
  | false, _, false => 0x00
  | false, _, true => 0x10
  | true, true, _ => 0x30
  | true, false, true => 0x60
  | true, false, false => 0x20

/-- The channel-order bit as the spec states it: 0 for RGB, 0x08 for BGR. -/
def specOrderBit (o : RGBOrder) : Nat :=
  match o with
  | RGBOrder.rgb => 0
  | RGBOrder.bgr => 0x08

/-- The pixel-format table as the spec states it: sentinel 0 whenever
grayscale is requested at a depth other than 8 or the depth is not one of
{3, 8, 16, 18, 24}, otherwise the fixed code for the depth. -/
def specPixelFormat (bpp : Nat) (gs : Bool) : Nat :=
  if gs = true ∧ bpp ≠ 8 then 0
  else if bpp = 3 then 0b00110011
  else if bpp = 8 then (if gs then 0b00010001 else 0b00100010)
  else if bpp = 16 then 0b01010101
  else if bpp = 18 then 0b01100110
  else if bpp = 24 then 0b01110111
  else 0

/-- The settle-delay table as the spec states it, in milliseconds. -/
def specDelay (a : Nat) : Nat :=
  if a = 0x10 then 5
  else if a = 0x11 then 120
  else if a = 0x29 ∨ a = 0xC2 then 10
  else 0

/-- Big-endian 16-bit encoding of a value below 65536: high byte then
low byte. -/
def be16 (n : Nat) : List Nat := [n / 256, n % 256]

/-- Whether a transaction trace contains a bulk pixel transfer. -/
def hasPixels (l : List Txn) : Bool :=
  l.any fun t =>
    match t with
    | Txn.pixels _ _ => true
    | Txn.cmd _ _ => false

/-- `send_commands` under an all-accepting transport: returns ESP_OK and
appends every command, consuming one tape position per command. -/
theorem send_commands_ok (tx : Nat → Int) (cmds : List LCDCmd) :
    ∀ s : TxState, (∀ j, j < cmds.length → tx (s.idx + j) = ESP_OK) →
      send_commands tx s cmds =
        (ESP_OK, ⟨s.idx + cmds.length, s.trace ++ cmds.map fun c => Txn.cmd c.lcd_cmd c.param⟩) := by
  induction cmds with
  | nil => intro s hok; simp [send_commands]
  | cons c rest ih =>
    intro s hok
    have h0 : tx s.idx = ESP_OK := by simpa using hok 0 (by simp)
    have hshift : ∀ j, j < rest.length → tx (s.idx + 1 + j) = ESP_OK := by
      intro j hj
      have heq : s.idx + 1 + j = s.idx + (j + 1) := by omega
      rw [heq]
      exact hok (j + 1) (by simp; omega)
    have hrest := ih ⟨s.idx + 1, s.trace ++ [Txn.cmd c.lcd_cmd c.param]⟩ hshift
    simp only [send_commands, send_command, h0, if_pos, List.length_cons, List.map_cons] at hrest ⊢
    rw [hrest]
    simp only [Prod.mk.injEq, TxState.mk.injEq, List.append_assoc, List.singleton_append]
    exact ⟨trivial, by omega, trivial⟩

/-- `send_commands` when the transport accepts the first k commands and
rejects the (k+1)-st: the rejection is returned and exactly the first
k+1 commands were issued. -/
theorem send_commands_fail (tx : Nat → Int) (cmds : List LCDCmd) :
    ∀ (s : TxState) (k : Nat), k < cmds.length →
      (∀ j, j < k → tx (s.idx + j) = ESP_OK) → tx (s.idx + k) ≠ ESP_OK →
      send_commands tx s cmds =
        (tx (s.idx + k),
          ⟨s.idx + k + 1,
            s.trace ++ (cmds.take (k + 1)).map fun c => Txn.cmd c.lcd_cmd c.param⟩) := by
  induction cmds with
  | nil => intro s k hk; simp at hk
  | cons c rest ih =>
    intro s k hk hok hfail
    match k with
    | 0 =>
      simp only [Nat.add_zero] at hfail
      simp [send_commands, send_command, hfail]
    | k' + 1 =>
      have h0 : tx s.idx = ESP_OK := by simpa using hok 0 (by omega)
      have hshift : ∀ j, j < k' → tx (s.idx + 1 + j) = ESP_OK := by
        intro j hj
        have heq : s.idx + 1 + j = s.idx + (j + 1) := by omega
        rw [heq]
        exact hok (j + 1) (by omega)
      have hfail2 : tx (s.idx + 1 + k') ≠ ESP_OK := by
        have heq : s.idx + 1 + k' = s.idx + (k' + 1) := by omega
        rw [heq]
        exact hfail
      have hrest := ih ⟨s.idx + 1, s.trace ++ [Txn.cmd c.lcd_cmd c.param]⟩ k'
        (by simp only [List.length_cons] at hk; omega) hshift hfail2
      simp only [send_commands, send_command, h0, if_pos, List.take_succ_cons,
        List.map_cons] at hrest ⊢
      rw [hrest]
      have heq : s.idx + 1 + k' = s.idx + (k' + 1) := by omega
      simp only [heq, Prod.mk.injEq, TxState.mk.injEq, List.append_assoc, List.singleton_append]

/-- A trace made only of parameterized commands holds no pixel transfer. -/
theorem hasPixels_map_cmd (l : List LCDCmd) :
    hasPixels (l.map fun c => Txn.cmd c.lcd_cmd c.param) = false := by
  induction l with
  | nil => rfl
  | cons c rest ih =>
    simp only [hasPixels, List.map_cons, List.any_cons] at ih ⊢
    simp only [Bool.false_or]
    exact ih

/-- `be_hi` on a natural value below 65536 is its big-endian high byte. -/
theorem be_hi_natCast (n : Nat) (hn : n < 65536) : be_hi ((n : Nat) : Int) = n / 256 := by
  unfold be_hi
  omega

/-- `be_lo` on a natural value is its big-endian low byte. -/
theorem be_lo_natCast (n : Nat) : be_lo ((n : Nat) : Int) = n % 256 := by
  unfold be_lo
  omega

/-- C1: for every combination of swap-xy, mirror-x, mirror-y and channel
order, the MADCTL byte sent by `update_screen_orientation` is exactly the
spec's tie-break rotation code ORed with the channel-order bit; with
swap-xy and both mirrors requested the code is the mirror-x one (0x30). -/
theorem C1_orientation_byte (sw mx my : Bool) (ord : RGBOrder) (tx : Nat → Int) (s : TxState) :
    update_screen_orientation tx
        { basePanel with swap_xy := sw, mirror_x := mx, mirror_y := my, rgb_ele_order := ord } s =
      (tx s.idx,
        ⟨s.idx + 1,
          s.trace ++ [Txn.cmd (command_base + 0x36 * 256) [specRotCode sw mx my ||| specOrderBit ord]]⟩) := by
  cases sw <;> cases mx <;> cases my <;> cases ord <;>
    simp [update_screen_orientation, send_command, LCDCmd.of, madctl_param, get_scan_direction,
      basePanel, specRotCode, specOrderBit, command_base, LCD_CMD_MADCTL,
      rotation_normal, rotation_mirror_y, rotation_swap_xy, rotation_minus90, rotation_plus90,
      rbg_element_order_rgb, rbg_element_order_bgr]

/-- C2: `get_pixel_format` agrees with the spec's table for every
bits-per-pixel value and grayscale flag, and returns the sentinel 0
exactly when the combination is unsupported (so every supported
combination yields a nonzero code). -/
theorem C2_pixel_format (bpp : Nat) (gs : Bool) :
    get_pixel_format { basePanel with bits_per_pixel := bpp, grayscale := gs } =
        specPixelFormat bpp gs ∧
      (get_pixel_format { basePanel with bits_per_pixel := bpp, grayscale := gs } = 0 ↔
        ¬((bpp = 3 ∨ bpp = 8 ∨ bpp = 16 ∨ bpp = 18 ∨ bpp = 24) ∧ (gs = true → bpp = 8))) := by
  cases gs <;>
    simp [get_pixel_format, specPixelFormat, basePanel, color_3_bits_per_pixel,
      grayscale_8_bits_per_pixel, color_8_bits_per_pixel, color_16_bits_per_pixel,
      color_18_bits_per_pixel, color_24_bits_per_pixel] <;>
    split_ifs <;> simp_all

/-- C3: for every one-byte command address the wire identifier built by
the `LCDCmd` constructor is the fixed prefix plus the address shifted
left 8 bits, and the settle delay is the spec's per-address table,
independent of the parameter list. -/
theorem C3_command_codec (a : Nat) (ps qs : List Nat) (ha : a < 256) :
    (LCDCmd.of a ps).lcd_cmd = command_base + (a : Int) * 256 ∧
      (LCDCmd.of a ps).delay = specDelay a ∧
      (LCDCmd.of a ps).delay = (LCDCmd.of a qs).delay := by
  have hmod : a % 256 = a := Nat.mod_eq_of_lt ha
  refine ⟨?_, ?_, ?_⟩
  · simp [LCDCmd.of, hmod]
  · simp [LCDCmd.of, specDelay, hmod, LCD_CMD_SLPIN, LCD_CMD_SLPOUT, LCD_CMD_DISPON,
      lcd_cmd_set_disp_mode]
  · simp [LCDCmd.of]

/-- Witness for C3 at the "exit sleep" address 0x11. -/
theorem C3_command_codec_witness :
    (LCDCmd.of 0x11 []).lcd_cmd = command_base + (0x11 : Int) * 256 ∧
      (LCDCmd.of 0x11 []).delay = specDelay 0x11 ∧
      (LCDCmd.of 0x11 []).delay = (LCDCmd.of 0x11 [0x2E]).delay :=
  C3_command_codec 0x11 [] [0x2E] (by decide)

/-- C6: the init command sequence is the fixed eight-command list, in
order: vendor page switch (0xFE, 0x20), the two magic commands (0x24,
0x80) and (0x5B, 0x2E), user page switch (0xFE, 0x00), set display mode
(0xC2, 0x00), tearing-effect on (0x35, 0x00), sleep out (0x11), display
on (0x29); it does not depend on any device configuration. -/
theorem C6_init_sequence :
    default_init_cmds.map (fun c => (c.lcd_cmd, c.param)) =
      [ (command_base + 0xFE * 256, [0x20])
      , (command_base + 0x24 * 256, [0x80])
      , (command_base + 0x5B * 256, [0x2E])
      , (command_base + 0xFE * 256, [0x00])
      , (command_base + 0xC2 * 256, [0x00])
      , (command_base + 0x35 * 256, [0x00])
      , (command_base + 0x11 * 256, [])
      , (command_base + 0x29 * 256, [])
      ] := by
  decide

/-- C7: `set_brightness` stores the requested value in the cached
brightness field and also sends the brightness command; the cache holds
the value afterwards whatever result the transport returned for the
send (no rollback), so `get_brightness` returns it. -/
theorem C7_brightness_cache (tx : Nat → Int) (p : Panel) (s : TxState) (b : Nat) (hb : b < 256) :
    get_brightness (set_brightness tx p s b).2.1 = b ∧
      (set_brightness tx p s b).2.2.trace =
        s.trace ++ [Txn.cmd (command_base + 0x51 * 256) [b]] := by
  have hmod : b % 256 = b := Nat.mod_eq_of_lt hb
  constructor
  · simp [set_brightness, get_brightness, hmod]
  · simp [set_brightness, send_command, LCDCmd.of, hmod, lcd_cmd_write_display_brightness,
      command_base]

/-- Witness for C7: brightness 200 with a transport that rejects every
send is still cached and read back as 200. -/
theorem C7_brightness_cache_witness :
    get_brightness (set_brightness (fun _ => ESP_FAIL) basePanel ⟨0, []⟩ 200).2.1 = 200 ∧
      (set_brightness (fun _ => ESP_FAIL) basePanel ⟨0, []⟩ 200).2.2.trace =
        TxState.trace ⟨0, []⟩ ++ [Txn.cmd (command_base + 0x51 * 256) [200]] :=
  C7_brightness_cache (fun _ => ESP_FAIL) basePanel ⟨0, []⟩ 200 (by decide)

/-- C9: `set_gap` returns ESP_OK and leaves the transport state (and so
the trace) untouched; applying it twice with the same arguments yields
the same panel state as applying it once, so the next `draw_bitmap`
produces the same transactions either way. -/
theorem C9_set_gap_idempotent (p : Panel) (s s2 : TxState) (gx gy : Int)
    (tx : Nat → Int) (x y xx yy : Int) :
    (set_gap p s gx gy).1 = ESP_OK ∧
      (set_gap p s gx gy).2.2 = s ∧
      (set_gap (set_gap p s gx gy).2.1 s2 gx gy).2.1 = (set_gap p s gx gy).2.1 ∧
      draw_bitmap tx (set_gap (set_gap p s gx gy).2.1 s2 gx gy).2.1 ⟨0, []⟩ x y xx yy =
        draw_bitmap tx (set_gap p s gx gy).2.1 ⟨0, []⟩ x y xx yy := by
  refine ⟨rfl, rfl, ?_, ?_⟩ <;> simp [set_gap]

/-- C10: the int gap arguments are stored into unsigned 8-bit fields, so
the stored gaps are the arguments modulo 256 (negative values wrap) and
the call still reports success; a subsequent `draw_bitmap` therefore
behaves as if the gaps had been given already reduced modulo 256. -/
theorem C10_set_gap_wraps (p : Panel) (s : TxState) (gx gy : Int)
    (tx : Nat → Int) (x y xx yy : Int) :
    (set_gap p s gx gy).1 = ESP_OK ∧
      ((set_gap p s gx gy).2.1.x_gap : Int) = gx % 256 ∧
      ((set_gap p s gx gy).2.1.y_gap : Int) = gy % 256 ∧
      draw_bitmap tx (set_gap p s gx gy).2.1 ⟨0, []⟩ x y xx yy =
        draw_bitmap tx
          { p with x_gap := ((gx % 256).toNat : Nat), y_gap := ((gy % 256).toNat : Nat) }
          ⟨0, []⟩ x y xx yy := by
  refine ⟨rfl, ?_, ?_, rfl⟩ <;> simp [set_gap] <;> omega

/-- C5: if the transport accepts the first k init commands and rejects
the (k+1)-st, `init` returns that first failure and no command after the
failing one is issued: the trace holds exactly the first k+1 init
commands. -/
theorem C5_init_fail_fast (tx : Nat → Int) (p : Panel) (k : Nat) (hk : k < 8)
    (hok : ∀ j, j < k → tx j = ESP_OK) (hfail : tx k ≠ ESP_OK) :
    (init tx p ⟨0, []⟩).1 = tx k ∧
      (init tx p ⟨0, []⟩).2.2.trace =
        (default_init_cmds.take (k + 1)).map fun c => Txn.cmd c.lcd_cmd c.param := by
  have hlen : k < default_init_cmds.length := by
    simp only [default_init_cmds, List.length_cons, List.length_nil]
    omega
  have h := send_commands_fail tx default_init_cmds ⟨0, []⟩ k hlen
    (by simpa using hok) (by simpa using hfail)
  simp only [zero_add, List.nil_append] at h
  simp [init, h, hfail]

/-- Witness for C5: a transport rejecting the third init command makes
`init` return that failure with only the first three commands issued. -/
theorem C5_init_fail_fast_witness :
    (init (fun i => if i = 2 then ESP_FAIL else ESP_OK) basePanel ⟨0, []⟩).1 =
        (fun i => if i = 2 then ESP_FAIL else ESP_OK : Nat → Int) 2 ∧
      (init (fun i => if i = 2 then ESP_FAIL else ESP_OK) basePanel ⟨0, []⟩).2.2.trace =
        (default_init_cmds.take (2 + 1)).map fun c => Txn.cmd c.lcd_cmd c.param :=
  C5_init_fail_fast (fun i => if i = 2 then ESP_FAIL else ESP_OK) basePanel 2 (by omega)
    (fun j hj => by interval_cases j <;> decide) (by decide)

/-- C8: if any of the three window transactions (column-address-set,
row-address-set, begin-memory-write) fails, `draw_bitmap` returns the
first failure and the pixel payload is never forwarded to the bulk-pixel
path. -/
theorem C8_draw_fail_fast (tx : Nat → Int) (p : Panel) (x y xx yy : Int) (j : Nat)
    (hj : j < 3) (hok : ∀ i, i < j → tx i = ESP_OK) (hfail : tx j ≠ ESP_OK) :
    (draw_bitmap tx p ⟨0, []⟩ x y xx yy).1 = tx j ∧
      hasPixels (draw_bitmap tx p ⟨0, []⟩ x y xx yy).2.trace = false := by
  have key : ∀ cmds : List LCDCmd, cmds.length = 3 →
      send_commands tx ⟨0, []⟩ cmds =
        (tx j, ⟨j + 1, (cmds.take (j + 1)).map fun c => Txn.cmd c.lcd_cmd c.param⟩) := by
    intro cmds hlen
    have h := send_commands_fail tx cmds ⟨0, []⟩ j (by omega)
      (by simpa using hok) (by simpa using hfail)
    simpa using h
  interval_cases j <;> simp [draw_bitmap, key, hfail, hasPixels]

/-- Witness for C8: a transport rejecting the second window command makes
`draw_bitmap` return that failure with no pixel transfer in the trace. -/
theorem C8_draw_fail_fast_witness :
    (draw_bitmap (fun i => if i = 1 then ESP_FAIL else ESP_OK) basePanel ⟨0, []⟩ 0 0 16 16).1 =
        (fun i => if i = 1 then ESP_FAIL else ESP_OK : Nat → Int) 1 ∧
      hasPixels
          (draw_bitmap (fun i => if i = 1 then ESP_FAIL else ESP_OK) basePanel
              ⟨0, []⟩ 0 0 16 16).2.trace =
        false :=
  C8_draw_fail_fast (fun i => if i = 1 then ESP_FAIL else ESP_OK) basePanel 0 0 16 16 1
    (by omega) (fun i hi => by interval_cases i; decide) (by decide)

/-- C4: for a draw rectangle with gap offsets and a transport accepting
the window commands, the column-address-set parameters are the big-endian
16-bit encodings of x_start+gx and x_end+gx-1, the row-address-set
parameters the analogous y encodings, and the bulk-pixel byte count is
(x_end-x_start)*(y_end-y_start)*bpp/8 in truncating integer
arithmetic. -/
theorem C4_window_calculator (tx : Nat → Int) (gx gy bpp xs ys xe ye : Nat)
    (hx : xs < xe) (hy : ys < ye) (hxe : xe + gx ≤ 65536) (hye : ye + gy ≤ 65536)
    (hbpp : bpp ≤ 255) (htx : ∀ i, i < 3 → tx i = ESP_OK) :
    (draw_bitmap tx { basePanel with x_gap := gx, y_gap := gy, bits_per_pixel := bpp }
        ⟨0, []⟩ (xs : Int) (ys : Int) (xe : Int) (ye : Int)).2.trace =
      [ Txn.cmd (command_base + 0x2A * 256) (be16 (xs + gx) ++ be16 (xe + gx - 1))
      , Txn.cmd (command_base + 0x2B * 256) (be16 (ys + gy) ++ be16 (ye + gy - 1))
      , Txn.cmd (command_base + 0x2C * 256) []
      , Txn.pixels (pixel_base + 0x2C * 256) ((xe - xs) * (ye - ys) * bpp / 8)
      ] := by
  have hcx1 : ((xs : Int) + ((gx : Nat) : Int)) = ((xs + gx : Nat) : Int) := by push_cast; ring
  have hcx2 : ((xe : Int) + ((gx : Nat) : Int) - 1) = ((xe + gx - 1 : Nat) : Int) := by omega
  have hcy1 : ((ys : Int) + ((gy : Nat) : Int)) = ((ys + gy : Nat) : Int) := by push_cast; ring
  have hcy2 : ((ye : Int) + ((gy : Nat) : Int) - 1) = ((ye + gy - 1 : Nat) : Int) := by omega
  have hb1 := be_hi_natCast (xs + gx) (by omega)
  have hb2 := be_lo_natCast (xs + gx)
  have hb3 := be_hi_natCast (xe + gx - 1) (by omega)
  have hb4 := be_lo_natCast (xe + gx - 1)
  have hb5 := be_hi_natCast (ys + gy) (by omega)
  have hb6 := be_lo_natCast (ys + gy)
  have hb7 := be_hi_natCast (ye + gy - 1) (by omega)
  have hb8 := be_lo_natCast (ye + gy - 1)
  have key : ∀ cmds : List LCDCmd, cmds.length = 3 →
      send_commands tx ⟨0, []⟩ cmds =
        (ESP_OK, ⟨3, cmds.map fun c => Txn.cmd c.lcd_cmd c.param⟩) := by
    intro cmds hlen
    have h := send_commands_ok tx cmds ⟨0, []⟩ (fun i hi => by simpa using htx i (by omega))
    simpa [hlen] using h
  have harea : ((xe : Int) + ((gx : Nat) : Int) - 1 - ((xs : Int) + ((gx : Nat) : Int)) + 1) *
      ((ye : Int) + ((gy : Nat) : Int) - 1 - ((ys : Int) + ((gy : Nat) : Int)) + 1) =
      (((xe - xs) * (ye - ys) : Nat) : Int) := by
    rw [Nat.cast_mul, Nat.cast_sub hx.le, Nat.cast_sub hy.le]
    ring
  have hab : (xe - xs) * (ye - ys) < 2 ^ 64 := by
    have h1 : xe - xs ≤ 65536 := by omega
    have h2 : ye - ys ≤ 65536 := by omega
    calc (xe - xs) * (ye - ys) ≤ 65536 * 65536 := Nat.mul_le_mul h1 h2
      _ < 2 ^ 64 := by norm_num
  have htoNat : ((((xe - xs) * (ye - ys) : Nat) : Int) % (18446744073709551616 : Int)).toNat =
      (xe - xs) * (ye - ys) := by omega
  have hbc : (xe - xs) * (ye - ys) * bpp % 18446744073709551616 = (xe - xs) * (ye - ys) * bpp := by
    apply Nat.mod_eq_of_lt
    calc (xe - xs) * (ye - ys) * bpp ≤ 65536 * 65536 * 255 := by
          have h1 : xe - xs ≤ 65536 := by omega
          have h2 : ye - ys ≤ 65536 := by omega
          exact Nat.mul_le_mul (Nat.mul_le_mul h1 h2) hbpp
      _ < 18446744073709551616 := by norm_num
  simp only [draw_bitmap, basePanel, key, hcx1, hcx2, hcy1, hcy2, harea, htoNat,
    hb1, hb2, hb3, hb4, hb5, hb6, hb7, hb8]
  simp [key, LCDCmd.of, be16, ESP_OK, command_base, pixel_base, LCD_CMD_CASET, LCD_CMD_RASET,
    LCD_CMD_RAMWR, LCD_CMD_SLPIN, LCD_CMD_SLPOUT, LCD_CMD_DISPON, lcd_cmd_set_disp_mode]
  rw [← hcx2, ← hcy2, harea, htoNat, hbc]

/-- Witness for C4: the spec's worked example, rect (0,100)x(0,50),
gaps (2,3), 16 bpp: column params (2, 101), row params (3, 52), payload
10000 bytes. -/
theorem C4_window_calculator_witness :
    (draw_bitmap (fun _ => ESP_OK)
        { basePanel with x_gap := 2, y_gap := 3, bits_per_pixel := 16 }
        ⟨0, []⟩ ((0 : Nat) : Int) ((0 : Nat) : Int) ((100 : Nat) : Int) ((50 : Nat) : Int)).2.trace =
      [ Txn.cmd (command_base + 0x2A * 256) (be16 (0 + 2) ++ be16 (100 + 2 - 1))
      , Txn.cmd (command_base + 0x2B * 256) (be16 (0 + 3) ++ be16 (50 + 3 - 1))
      , Txn.cmd (command_base + 0x2C * 256) []
      , Txn.pixels (pixel_base + 0x2C * 256) ((100 - 0) * (50 - 0) * 16 / 8)
      ] :=
  C4_window_calculator (fun _ => ESP_OK) 2 3 16 0 0 100 50 (by decide) (by decide)
    (by decide) (by decide) (by decide) (fun i _ => rfl)

end RM690B0
